import Mathlib

set_option maxRecDepth 4000

/-!
A verification development for the core retrieval-routing logic of the
financial RAG chatbot: query classification and fund aggregation
(`query_router.py`), retrieval validation, deduplication and hybrid routing
(`retrieval.py`), and answer assembly with output sanitisation
(`llm_handler.py`).

Modelling conventions: Python strings are `String`/`List Char`, floats are
`ℚ`, dicts are association lists, `None`-able parameters are `Option`, and
the two external network services (the vector index and the LLM) are
abstracted as outcome environments whose calls are recorded by flags.
-/

/-- Python truthiness of an optional string: `None` and `""` are falsy. -/
def pyTruthyStrOpt : Option String → Bool
  | none => false
  | some s => !(s == "")

/-- Python `str.lower`, per-character (the queries are ASCII). -/
def pyLower (l : List Char) : List Char := l.map Char.toLower

/-- Python `needle in haystack` substring test. -/
def pyContainsSub (haystack needle : List Char) : Bool :=
  (List.range (haystack.length + 1)).any fun i => needle.isPrefixOf (haystack.drop i)

/-- Python whitespace, for `str.strip` (ASCII subset). -/
def isPySpace (c : Char) : Bool :=
  c == ' ' || c == '\t' || c == '\n' || c == '\r' || c == '\x0b' || c == '\x0c'

/-- Python `str.strip()`: drop leading and trailing whitespace. -/
def pyStrip (l : List Char) : List Char :=
  ((l.dropWhile isPySpace).reverse.dropWhile isPySpace).reverse

/-- One atom of the regexes used by `QueryRouter.classify_query_type`:
a literal character or a character class such as `[&/]`. -/
inductive RAtom
  | lit (c : Char)
  | cls (cs : List Char)

/-- Whether a regex atom matches one character. -/
def ratomMatch : RAtom → Char → Bool
  | RAtom.lit a, c => a == c
  | RAtom.cls cs, c => cs.contains c

/-- A contiguous run of atoms between two `.*` of a source pattern. -/
abbrev Segment := List RAtom

/-- A pattern is its list of segments, joined by `.*` in the source. -/
abbrev RPattern := List Segment

/-- Match a segment against a prefix of the text, returning the remainder. -/
def segMatch : Segment → List Char → Option (List Char)
  | [], s => some s
  | _ :: _, [] => none
  | a :: more, c :: cs => if ratomMatch a c then segMatch more cs else none

/-- Match the `.*`-joined segments anchored at the start of the text; the
gaps matched by `.*` may not contain a newline (Python default, no DOTALL). -/
def matchSegs : RPattern → List Char → Bool
  | [], _ => true
  | seg :: rest, s =>
    match segMatch seg s with
    | none => false
    | some s2 =>
      (List.range (s2.length + 1)).any fun j =>
        ((s2.take j).all fun c => !(c == '\n')) && matchSegs rest (s2.drop j)

/-- Python `re.search`: the match may begin at any offset of the text. -/
def reSearch (p : RPattern) (s : List Char) : Bool :=
  (List.range (s.length + 1)).any fun i => matchSegs p (s.drop i)

/-- A purely literal segment of a pattern. -/
def litSeg (s : String) : Segment := s.data.map RAtom.lit

/-- The `p[&/]l` segment shared by the three P&L patterns. -/
def plSeg : Segment := [RAtom.lit 'p', RAtom.cls ['&', '/'], RAtom.lit 'l']

/-- The fixed ordered pattern list of `QueryRouter.classify_query_type`. -/
def aggregationPatterns : List RPattern :=
  [ [litSeg "which fund", litSeg "best"],
    [litSeg "which fund", litSeg "performed"],
    [litSeg "which fund", litSeg "better"],
    [litSeg "compare", litSeg "funds"],
    [litSeg "top", litSeg "funds"],
    [litSeg "rank", litSeg "funds"],
    [litSeg "all funds"],
    [litSeg "fund performance"],
    [litSeg "best", litSeg "yearly", plSeg],
    [litSeg "highest", plSeg],
    [litSeg "lowest", plSeg],
    [litSeg "funds", litSeg "better"],
    [litSeg "funds", litSeg "worse"],
    [litSeg "total", litSeg "all funds"],
    [litSeg "aggregate", litSeg "funds"] ]

/-- The first-match-wins loop inside `classify_query_type`. -/
def classifyLoop : List RPattern → List Char → String
  | [], _ => "specific"
  | p :: ps, ql => if reSearch p ql then "aggregation" else classifyLoop ps ql

/-- Model of `QueryRouter.classify_query_type`: lower-case the query, scan the
pattern list in order, return `"aggregation"` on the first hit and
`"specific"` if no pattern matches. -/
def classifyQueryType (query : String) : String :=
  classifyLoop aggregationPatterns (pyLower query.data)

/-- Decimal digit character, for rendering numbers in f-strings. -/
def digitChar (n : Nat) : Char :=
  if n = 0 then '0' else if n = 1 then '1' else if n = 2 then '2'
  else if n = 3 then '3' else if n = 4 then '4' else if n = 5 then '5'
  else if n = 6 then '6' else if n = 7 then '7' else if n = 8 then '8' else '9'

/-- Fuelled decimal rendering (the fuel is an upper bound on the digit
count, making the recursion structural). -/
def natDigitsAux : Nat → Nat → List Char
  | 0, _ => []
  | fuel + 1, n =>
    if n < 10 then [digitChar n]
    else natDigitsAux fuel (n / 10) ++ [digitChar (n % 10)]

/-- Decimal rendering of a natural number, as an f-string renders it. -/
def natDigits (n : Nat) : List Char := natDigitsAux (n + 1) n

/-- Insert a thousands separator after every third character of the
reversed digit list (the `,` of the `{x:,.2f}` format specifier). -/
def commaGo : List Char → Nat → List Char
  | [], _ => []
  | c :: cs, k =>
    (if 0 < k ∧ k % 3 = 0 then [','] else []) ++ (c :: commaGo cs (k + 1))

/-- Group a digit list with thousands separators. -/
def withCommas (ds : List Char) : List Char := (commaGo ds.reverse 0).reverse

/-- Rendering of the Python format specifier `{x:,.2f}` over `ℚ`: sign,
comma-grouped integer part, and two decimal places of `x` rounded at the
second decimal. -/
def fmtMoney (x : ℚ) : List Char :=
  let cents : ℤ := round (x * 100)
  let n := cents.natAbs
  let frac := n % 100
  (if cents < 0 then ['-'] else []) ++ withCommas (natDigits (n / 100)) ++
    ('.' :: (if frac < 10 then '0' :: natDigits frac else natDigits frac))

/-- Stable sort of a keyed association list by descending value, the
`sorted(d.items(), key=lambda x: x[1], reverse=True)` idiom. -/
def sortByValDesc {β : Type} [LinearOrder β] (d : List (String × β)) : List (String × β) :=
  List.insertionSort (fun a b => b.2 ≤ a.2) d

/-- The distinct group keys of a pandas `groupby`, in sorted key order. -/
def groupKeysSorted (names : List String) : List String :=
  List.insertionSort (fun a b => a ≤ b) names.dedup

/-- One row of the Holdings table (the columns the core logic reads). -/
structure HoldingRow where
  PortfolioName : String
  PL_YTD : ℚ
  PL_QTD : ℚ
  PL_MTD : ℚ
  PL_DTD : ℚ

/-- One row of the Trades table (the columns the core logic reads). -/
structure TradeRow where
  PortfolioName : String
  TradeTypeName : String
  TotalCash : ℚ

/-- Model of `df.groupby(key)[col].sum()` as an association list. -/
def groupSum {α : Type} (rows : List α) (key : α → String) (val : α → ℚ) :
    List (String × ℚ) :=
  (groupKeysSorted (rows.map key)).map fun k =>
    (k, ((rows.filter fun r => key r == k).map val).sum)

/-- Model of `df.groupby(key).size()` as an association list. -/
def groupCount {α : Type} (rows : List α) (key : α → String) : List (String × Nat) :=
  (groupKeysSorted (rows.map key)).map fun k =>
    (k, (rows.filter fun r => key r == k).length)

/-- Model of `df.groupby(key)[col].mean()` as an association list. -/
def groupMean {α : Type} (rows : List α) (key : α → String) (val : α → ℚ) :
    List (String × ℚ) :=
  (groupKeysSorted (rows.map key)).map fun k =>
    (k, ((rows.filter fun r => key r == k).map val).sum /
        ((rows.filter fun r => key r == k).length : ℚ))

/-- The per-fund sums of the four P&L horizons (`pl_metrics`). -/
def plMetricsTable (rows : List HoldingRow) :
    List (String × (ℚ × ℚ × ℚ × ℚ)) :=
  (groupKeysSorted (rows.map HoldingRow.PortfolioName)).map fun k =>
    (k, (((rows.filter fun r => r.PortfolioName == k).map HoldingRow.PL_YTD).sum,
         ((rows.filter fun r => r.PortfolioName == k).map HoldingRow.PL_QTD).sum,
         ((rows.filter fun r => r.PortfolioName == k).map HoldingRow.PL_MTD).sum,
         ((rows.filter fun r => r.PortfolioName == k).map HoldingRow.PL_DTD).sum))

/-- The buy/sell cross table (`groupby([fund, type]).size().unstack(fill_value=0)`),
keyed by trade type then by fund, zeros filled in. -/
def tradeTypesTable (rows : List TradeRow) :
    List (String × List (String × Nat)) :=
  (groupKeysSorted (rows.map TradeRow.TradeTypeName)).map fun t =>
    (t, (groupKeysSorted (rows.map TradeRow.PortfolioName)).map fun p =>
      (p, (rows.filter fun r => r.PortfolioName == p && r.TradeTypeName == t).length))

/-- The `stats` dict built by `QueryRouter.compute_fund_aggregations`; a
`none` field models an absent key. -/
structure Stats where
  pl_ytd_by_fund : Option (List (String × ℚ))
  holdings_count : Option (List (String × Nat))
  avg_pl_ytd : Option (List (String × ℚ))
  pl_metrics : Option (List (String × (ℚ × ℚ × ℚ × ℚ)))
  trade_count : Option (List (String × Nat))
  trade_types : Option (List (String × List (String × Nat)))
  total_cash : Option (List (String × ℚ))

/-- The empty `stats` dict. -/
def emptyStats : Stats := ⟨none, none, none, none, none, none, none⟩

/-- Model of `QueryRouter.compute_fund_aggregations`: per-fund aggregates over the
full Holdings and Trades tables; the holdings keys are filled only when
the holdings table is present and non-empty, the trades keys likewise. -/
def computeFundAggregations (holdings_df : Option (List HoldingRow))
    (trades_df : Option (List TradeRow)) : Stats :=
  let s1 :=
    match holdings_df with
    | some rows =>
      if 0 < rows.length then
        { emptyStats with
          pl_ytd_by_fund :=
            some (sortByValDesc (groupSum rows HoldingRow.PortfolioName HoldingRow.PL_YTD)),
          holdings_count := some (groupCount rows HoldingRow.PortfolioName),
          avg_pl_ytd := some (groupMean rows HoldingRow.PortfolioName HoldingRow.PL_YTD),
          pl_metrics := some (plMetricsTable rows) }
      else emptyStats
    | none => emptyStats
  match trades_df with
  | some rows =>
    if 0 < rows.length then
      { s1 with
        trade_count := some (groupCount rows TradeRow.PortfolioName),
        trade_types := some (tradeTypesTable rows),
        total_cash := some (groupSum rows TradeRow.PortfolioName TradeRow.TotalCash) }
    else s1
  | none => s1

/-- The `"\n".join` of the context parts. -/
def joinNL : List (List Char) → List Char
  | [] => []
  | [x] => x
  | x :: xs => x ++ '\n' :: joinNL xs

/-- The P&L ranking section of `format_aggregation_context` (built when
the `pl_ytd_by_fund` key is present and non-empty). -/
def plSection (stats : Stats) : List (List Char) :=
  match stats.pl_ytd_by_fund with
  | some d =>
    if d = [] then []
    else
      "=== COMPLETE Fund Performance Rankings (Yearly P&L) ===".data ::
      "This includes ALL funds in the dataset:\n".data ::
      (((sortByValDesc d).enum.map fun p =>
          natDigits (p.1 + 1) ++ (". ".data ++ (p.2.1.data ++ (": $".data ++ fmtMoney p.2.2)))) ++
        ["\nTotal Funds: ".data ++ natDigits (sortByValDesc d).length])
  | none => []

/-- The holdings-count section of `format_aggregation_context`. -/
def holdingsSection (stats : Stats) : List (List Char) :=
  match stats.holdings_count with
  | some d =>
    if d = [] then []
    else
      "\n\n=== Holdings Count by Fund ===".data ::
      (sortByValDesc d).map fun p =>
        "  ".data ++ (p.1.data ++ (": ".data ++ (natDigits p.2 ++ " holdings".data)))
  | none => []

/-- The trade-count section of `format_aggregation_context`. -/
def tradeSection (stats : Stats) : List (List Char) :=
  match stats.trade_count with
  | some d =>
    if d = [] then []
    else
      "\n\n=== Trade Count by Fund ===".data ::
      (sortByValDesc d).map fun p =>
        "  ".data ++ (p.1.data ++ (": ".data ++ (natDigits p.2 ++ " trades".data)))
  | none => []

/-- The header element that opens the cash-ranking section. -/
def cashHeaderChars : List Char := "\n\n=== Total Cash by Fund ===".data

/-- The cash-ranking section of `format_aggregation_context`: built only
when the lower-cased query contains both `'total'` and `'cash'` and the
`total_cash` key is present and non-empty. -/
def cashSection (stats : Stats) (query : String) : List (List Char) :=
  if pyContainsSub (pyLower query.data) "total".data &&
      pyContainsSub (pyLower query.data) "cash".data then
    match stats.total_cash with
    | some d =>
      if d = [] then []
      else
        cashHeaderChars ::
        (sortByValDesc d).map fun p =>
          "  ".data ++ (p.1.data ++ (": $".data ++ fmtMoney p.2))
    | none => []
  else []

/-- The `context_parts` list accumulated by
`QueryRouter.format_aggregation_context`, in source order. -/
def formatAggregationContextParts (stats : Stats) (query : String) : List (List Char) :=
  plSection stats ++ holdingsSection stats ++ tradeSection stats ++ cashSection stats query

/-- Model of `QueryRouter.format_aggregation_context`: join the accumulated parts,
or report that no aggregation data is available. -/
def formatAggregationContext (stats : Stats) (query : String) : String :=
  let parts := formatAggregationContextParts stats query
  if parts = [] then "No aggregation data available."
  else ⟨joinNL parts⟩

/-- The single user-visible failure message of the retrieval pipeline. -/
def noDataMsg : String := "Sorry, I cannot find the answer in the provided data"

/-- The setting `Config.MIN_RELEVANCE_SCORE`, the rational `0.3`. -/
def MIN_RELEVANCE_SCORE : ℚ := mkRat 3 10

/-- The setting `Config.MIN_CHUNKS_REQUIRED`. -/
def MIN_CHUNKS_REQUIRED : Nat := 3

/-- The setting `Config.TOP_K_CHUNKS`. -/
def TOP_K_CHUNKS : Nat := 10

/-- The `x or default` idiom on an optional float argument: `None` and
`0.0` are both falsy and replaced by the default. -/
def pyOrRat (v : Option ℚ) (d : ℚ) : ℚ :=
  match v with
  | none => d
  | some x => if x = 0 then d else x

/-- The `x or default` idiom on an optional integer argument: `None` and
`0` are both falsy and replaced by the default. -/
def pyOrNat (v : Option Nat) (d : Nat) : Nat :=
  match v with
  | none => d
  | some n => if n = 0 then d else n

/-- A match returned by the similarity search: its score and the `fund`
entry of its metadata (`None` when the key is absent). -/
structure RMatch where
  score : ℚ
  fund : Option String
deriving DecidableEq

/-- Model of `RetrievalPipeline.validate_retrieval`: resolve the defaulted
thresholds, fail on an empty result list, keep the matches at or above the
minimum score, fail if fewer than the required count survive. -/
def validateRetrieval (results : List RMatch) (min_score : Option ℚ)
    (min_chunks : Option Nat) : Option (List RMatch) × Option String :=
  let ms := pyOrRat min_score MIN_RELEVANCE_SCORE
  let mc := pyOrNat min_chunks MIN_CHUNKS_REQUIRED
  if results = [] then (none, some noDataMsg)
  else
    let relevant := results.filter fun r => decide (ms ≤ r.score)
    if relevant.length < mc then (none, some noDataMsg)
    else (some relevant, none)

/-- The duplicate test of `deduplicate_chunks`: same fund metadata and an
absolute score difference below the hard-coded `0.05`. -/
def isCloseDup (sel c : RMatch) : Bool :=
  (c.fund == sel.fund) && decide (|c.score - sel.score| < 5 / 100)

/-- The accumulator loop of `deduplicate_chunks`: drop a chunk exactly
when some already-kept chunk is a close duplicate of it. -/
def dedupLoop : List RMatch → List RMatch → List RMatch
  | [], acc => acc
  | c :: rest, acc =>
    if acc.any fun sel => isCloseDup sel c then dedupLoop rest acc
    else dedupLoop rest (acc ++ [c])

/-- Model of `RetrievalPipeline.deduplicate_chunks`; the source's
`similarity_threshold` parameter (default `0.95`) is accepted but unused
by the body, which hard-codes the `0.05` tolerance. -/
def deduplicateChunks (chunks : List RMatch) (similarity_threshold : ℚ) : List RMatch :=
  match chunks with
  | [] => chunks
  | c :: rest => dedupLoop rest [c]

/-- A metadata filter dict (`{'has_pl': True}` or empty). -/
def RFilters := List (String × Bool)

/-- The external vector index, abstracted as its two query entry points
(`query` on one namespace, `query_both_namespaces` on both). -/
structure VectorDatabase where
  query : String → String → Nat → Option RFilters → List RMatch
  query_both_namespaces : String → Nat → Option RFilters → List RMatch

/-- Model of `RetrievalPipeline.retrieve_chunks`: resolve the defaulted `top_k`,
then dispatch on the truthiness of the namespace argument. -/
def retrieveChunks (vdb : VectorDatabase) (query : String) (top_k : Option Nat)
    (filters : Option RFilters) (nspace : Option String) : List RMatch :=
  let k := pyOrNat top_k TOP_K_CHUNKS
  match nspace with
  | some ns => if ns.length ≠ 0 then vdb.query query ns k filters
               else vdb.query_both_namespaces query k filters
  | none => vdb.query_both_namespaces query k filters

/-- The character set removed by the sanitiser's regex
`[\x00-\x09\x0B-\x1F\x7F]` (note the first range ends at `\x09`, so the
tab character falls inside it). -/
def inStripRange (c : Char) : Bool :=
  (c.toNat ≤ 0x09) || (0x0B ≤ c.toNat && c.toNat ≤ 0x1F) || (c.toNat == 0x7F)

/-- Python `text.replace('\r\n', '\n')`. -/
def replaceCRLF : List Char → List Char
  | [] => []
  | [c] => [c]
  | a :: b :: rest =>
    if a = '\r' ∧ b = '\n' then '\n' :: replaceCRLF rest
    else a :: replaceCRLF (b :: rest)

/-- The character pipeline of `sanitize_text_for_json`: strip the control
range, normalise line endings, drop NUL bytes, then `str.strip()`. -/
def sanitizeChars (l : List Char) : List Char :=
  let t1 := l.filter fun c => !inStripRange c
  let t2 := (replaceCRLF t1).map fun c => if c = '\r' then '\n' else c
  let t3 := t2.filter fun c => !(c == '\x00')
  pyStrip t3

/-- Model of `sanitize_text_for_json` (`llm_handler.py`): an empty string is
returned as-is, any other string goes through the sanitising pipeline. -/
def sanitizeTextForJson (text : String) : String :=
  if text = "" then text else ⟨sanitizeChars text.data⟩

/-- Model of `LLMHandler.validate_answer`: accept an answer that voices the
canonical refusal, reject an answer whose stripped text is shorter than
10 characters, accept everything else (the context argument is unused by
the source's checks). -/
def validateAnswer (answer : String) (context_chunks : String) : Bool :=
  if pyContainsSub (pyLower answer.data) "sorry".data &&
      pyContainsSub (pyLower answer.data) "cannot find".data then true
  else if (pyStrip answer.data).length < 10 then false
  else true

/-- The outcomes of the two retrieval paths for one query, abstracting the
external vector index and the pandas runtime: `aggOutcome` is the result
of the `try` block around `compute_fund_aggregations` +
`format_aggregation_context` (`Except.error` carries the exception text),
and `ragOutcome` is the result of `retrieve_and_validate`, whose failure
is always the fixed no-data message in the source (both failure returns in
`retrieve_and_validate` produce exactly `noDataMsg`). -/
structure HybridEnv where
  aggOutcome : Except String String
  ragOutcome : Except Unit String

/-- Model of `HybridRetrievalPipeline.retrieve_context`, instrumented: the returned
pair is the source's `(context, error)`, and the two flags record whether
the aggregation path and the semantic path were invoked. -/
def retrieveContextI (env : HybridEnv) (query : String) :
    (Option String × Option String) × Bool × Bool :=
  if classifyQueryType query = "aggregation" then
    match env.aggOutcome with
    | Except.ok ctx => ((some ctx, none), true, false)
    | Except.error _ => ((none, some noDataMsg), true, false)
  else
    match env.ragOutcome with
    | Except.ok ctx => ((some ctx, none), false, true)
    | Except.error _ => ((none, some noDataMsg), false, true)

/-- The result dict of `HybridRAGPipeline.query`. -/
structure HybridRAGResult where
  answer : String
  context : String
  query_type : String
  error : Option String
deriving DecidableEq

/-- The environment of one `HybridRAGPipeline.query` call: the retrieval
outcomes plus the generation outcome (`Except.ok` carries
`response.text`, with `""` standing for a falsy text; `Except.error`
carries the exception text). -/
structure AnswerEnv where
  hy : HybridEnv
  genOutcome : Except String String

/-- Model of `HybridRAGPipeline.query`, instrumented: route and retrieve, fail
closed on a truthy error without generating, otherwise re-derive the
query type, generate, and sanitise the generated text; the Boolean
records whether the generation capability was invoked. -/
def hybridRAGQuery (env : AnswerEnv) (user_question : String) :
    HybridRAGResult × Bool :=
  let rc := retrieveContextI env.hy user_question
  let context := rc.1.1
  let error := rc.1.2
  if pyTruthyStrOpt error then
    ({ answer := error.getD "", context := "", query_type := "", error := error }, false)
  else
    let answer :=
      match env.genOutcome with
      | Except.ok t =>
        sanitizeTextForJson (if t = "" then "Sorry, I could not generate an answer." else t)
      | Except.error e => "Error generating answer: " ++ e
    ({ answer := answer, context := context.getD "",
       query_type := classifyQueryType user_question, error := none }, true)

/-- The result dict of the plain `RAGPipeline.query` (its constant-empty
`stats` entry is omitted). -/
structure RAGResult where
  answer : String
  context : String
  error : Option String
deriving DecidableEq

/-- The environment of one `RAGPipeline.query` call: the
`retrieve_and_validate` outcome pair and the text returned by
`generate_answer` (which catches its own exceptions and always returns a
string). -/
structure RAGEnv where
  retrieveOutcome : Option String × Option String
  genAnswer : String

/-- Model of `RAGPipeline.query`: fail closed on a truthy retrieval error,
otherwise generate and replace the answer by the canonical refusal when
`validate_answer` rejects it. -/
def ragQuery (env : RAGEnv) (user_question : String) : RAGResult :=
  if pyTruthyStrOpt env.retrieveOutcome.2 then
    { answer := env.retrieveOutcome.2.getD "", context := "",
      error := env.retrieveOutcome.2 }
  else
    let context := env.retrieveOutcome.1.getD ""
    let answer := env.genAnswer
    if validateAnswer answer context then
      { answer := answer, context := context, error := none }
    else
      { answer := noDataMsg, context := context, error := none }

/-- The concrete stats dict used to exercise `format_aggregation_context`:
only the `total_cash` key is present, with one fund. -/
def statsCash : Stats :=
  { emptyStats with total_cash := some [("FundA", 5)] }

/-! The theorems about the model. -/

/-- The first-match-wins loop succeeds exactly when some pattern matches. -/
theorem classifyLoop_eq_any (ps : List RPattern) (ql : List Char) :
    classifyLoop ps ql =
      if ps.any (fun p => reSearch p ql) then "aggregation" else "specific" := by
  induction ps with
  | nil => simp [classifyLoop]
  | cons p rest ih =>
    by_cases h : reSearch p ql = true
    · simp [classifyLoop, h]
    · simp only [Bool.not_eq_true] at h
      simp [classifyLoop, h, ih]

/-- C2: `classify_query_type` returns `'aggregation'` iff some regex of the
fixed ordered pattern list matches the lower-cased question (first match
wins), and returns `'specific'` otherwise; as a Lean function of the
question text it is pure and deterministic by construction. -/
theorem classify_query_type_spec (q : String) :
    (classifyQueryType q = "aggregation" ↔
      aggregationPatterns.any (fun p => reSearch p (pyLower q.data)) = true) ∧
    (classifyQueryType q = "specific" ↔
      aggregationPatterns.any (fun p => reSearch p (pyLower q.data)) = false) := by
  unfold classifyQueryType
  rw [classifyLoop_eq_any]
  cases h : aggregationPatterns.any fun p => reSearch p (pyLower q.data) <;>
    simp [h]

/-- Concrete instances of the classification specification. -/
theorem classify_query_type_spec_witness :
    classifyQueryType "compare all funds" = "aggregation" ∧
    classifyQueryType "What securities does Garfield hold?" = "specific" := by
  constructor
  · exact (classify_query_type_spec "compare all funds").1.mpr (by decide)
  · exact (classify_query_type_spec "What securities does Garfield hold?").2.mpr (by decide)

/-- C3: `validate_retrieval` fails with the no-data message exactly when
the input is empty or fewer than the resolved minimum count (default 3)
of matches score at or above the resolved threshold (default 0.3), and
otherwise returns exactly the surviving matches with a nil error. -/
theorem validate_retrieval_spec (results : List RMatch) (ms : Option ℚ)
    (mc : Option Nat) :
    (validateRetrieval results ms mc = (none, some noDataMsg) ↔
      (results = [] ∨
        (results.filter fun r => decide (pyOrRat ms MIN_RELEVANCE_SCORE ≤ r.score)).length <
          pyOrNat mc MIN_CHUNKS_REQUIRED)) ∧
    (pyOrNat mc MIN_CHUNKS_REQUIRED ≤
        (results.filter fun r => decide (pyOrRat ms MIN_RELEVANCE_SCORE ≤ r.score)).length →
      validateRetrieval results ms mc =
        (some (results.filter fun r => decide (pyOrRat ms MIN_RELEVANCE_SCORE ≤ r.score)),
          none)) := by
  have hmc : 0 < pyOrNat mc MIN_CHUNKS_REQUIRED := by
    cases mc with
    | none => simp [pyOrNat, MIN_CHUNKS_REQUIRED]
    | some n =>
      simp only [pyOrNat, MIN_CHUNKS_REQUIRED]
      split_ifs <;> omega
  unfold validateRetrieval
  by_cases he : results = []
  · subst he
    refine ⟨by simp [hmc], fun hle => ?_⟩
    simp only [List.filter_nil, List.length_nil, Nat.le_zero] at hle
    omega
  · by_cases hl :
      (results.filter fun r => decide (pyOrRat ms MIN_RELEVANCE_SCORE ≤ r.score)).length <
        pyOrNat mc MIN_CHUNKS_REQUIRED
    · refine ⟨by simp [he, hl], fun hle => ?_⟩
      omega
    · simp [he, hl]

/-- Concrete instance: three matches at score `1/2` all survive the default
thresholds. -/
theorem validate_retrieval_spec_witness :
    validateRetrieval [⟨mkRat 1 2, none⟩, ⟨mkRat 1 2, none⟩, ⟨mkRat 1 2, none⟩] none none =
      (some (([⟨mkRat 1 2, none⟩, ⟨mkRat 1 2, none⟩, ⟨mkRat 1 2, none⟩] : List RMatch).filter
          fun r => decide (MIN_RELEVANCE_SCORE ≤ r.score)), none) :=
  (validate_retrieval_spec _ none none).2 (by decide)

/-- C10: an explicit zero passed for `min_score`, `min_chunks` or `top_k`
is falsy, hence indistinguishable from an omitted argument and replaced by
the configured default (`0.3`, `3` and `10` respectively). -/
theorem zero_treated_as_default :
    (∀ results : List RMatch,
      validateRetrieval results (some 0) (some 0) = validateRetrieval results none none ∧
      validateRetrieval results (some 0) (some 0) =
        validateRetrieval results (some MIN_RELEVANCE_SCORE) (some MIN_CHUNKS_REQUIRED)) ∧
    (∀ (vdb : VectorDatabase) (q : String) (filters : Option RFilters)
        (ns : Option String),
      retrieveChunks vdb q (some 0) filters ns = retrieveChunks vdb q none filters ns ∧
      retrieveChunks vdb q (some 0) filters ns =
        retrieveChunks vdb q (some TOP_K_CHUNKS) filters ns) := by
  have h3 : MIN_RELEVANCE_SCORE ≠ 0 := by decide
  have h10 : TOP_K_CHUNKS ≠ 0 := by decide
  have hc : MIN_CHUNKS_REQUIRED ≠ 0 := by decide
  refine ⟨fun results => ?_, fun vdb q f ns => ?_⟩
  · unfold validateRetrieval pyOrRat pyOrNat
    simp [h3, hc]
  · unfold retrieveChunks pyOrNat
    simp [h10]

/-- The accumulator of `dedupLoop` is always a prefix of its result. -/
theorem dedupLoop_prefix (input : List RMatch) :
    ∀ acc : List RMatch, ∃ t, dedupLoop input acc = acc ++ t := by
  induction input with
  | nil => exact fun acc => ⟨[], by simp [dedupLoop]⟩
  | cons c rest ih =>
    intro acc
    unfold dedupLoop
    by_cases h : acc.any (fun sel => isCloseDup sel c) = true
    · simp only [h, if_true]
      exact ih acc
    · simp only [h]
      obtain ⟨t, ht⟩ := ih (acc ++ [c])
      exact ⟨c :: t, by simp [ht]⟩

/-- C4: `deduplicate_chunks` always keeps the first match of a non-empty
input, and on a two-element input drops the second match exactly when it
shares the first match's fund metadata and lies within the hard-coded
`0.05` score tolerance of it. -/
theorem deduplicate_chunks_spec :
    (∀ (c : RMatch) (rest : List RMatch) (th : ℚ),
      ∃ t, deduplicateChunks (c :: rest) th = c :: t) ∧
    (∀ (c : RMatch) (rest acc : List RMatch),
      dedupLoop (c :: rest) acc =
        if ∃ sel ∈ acc, c.fund = sel.fund ∧ |c.score - sel.score| < 5 / 100 then
          dedupLoop rest acc
        else dedupLoop rest (acc ++ [c])) ∧
    (∀ (a b : RMatch) (th : ℚ), a.fund = b.fund → |b.score - a.score| < 5 / 100 →
      deduplicateChunks [a, b] th = [a]) ∧
    (∀ (a b : RMatch) (th : ℚ), ¬(a.fund = b.fund ∧ |b.score - a.score| < 5 / 100) →
      deduplicateChunks [a, b] th = [a, b]) := by
  have hany : ∀ (c : RMatch) (acc : List RMatch),
      (acc.any fun sel => isCloseDup sel c) = true ↔
        ∃ sel ∈ acc, c.fund = sel.fund ∧ |c.score - sel.score| < 5 / 100 := by
    intro c acc
    simp [List.any_eq_true, isCloseDup]
  refine ⟨fun c rest th => ?_, fun c rest acc => ?_, fun a b th hf hs => ?_,
    fun a b th h => ?_⟩
  case refine_2 =>
    by_cases hex : ∃ sel ∈ acc, c.fund = sel.fund ∧ |c.score - sel.score| < 5 / 100
    · rw [if_pos hex]
      unfold dedupLoop
      rw [if_pos ((hany c acc).mpr hex)]
      cases rest <;> rfl
    · rw [if_neg hex]
      unfold dedupLoop
      rw [if_neg (fun hc => hex ((hany c acc).mp hc))]
      cases rest <;> rfl
  · obtain ⟨t, ht⟩ := dedupLoop_prefix rest [c]
    exact ⟨t, by simpa [deduplicateChunks] using ht⟩
  · have hdup : isCloseDup a b = true := by
      simp [isCloseDup, hf, hs]
    simp [deduplicateChunks, dedupLoop, hdup]
  · have hdup : isCloseDup a b = false := by
      by_cases hf : a.fund = b.fund
      · have hs : ¬ |b.score - a.score| < 5 / 100 := fun hs => h ⟨hf, hs⟩
        simp [isCloseDup, hf, hs]
      · simp [isCloseDup]
        intro hx
        exact absurd hx.symm hf
    simp [deduplicateChunks, dedupLoop, hdup]

/-- Concrete instance: two same-fund matches at equal score collapse to
the first. -/
theorem deduplicate_chunks_spec_witness :
    deduplicateChunks [⟨mkRat 9 10, some "F"⟩, ⟨mkRat 9 10, some "F"⟩] (mkRat 95 100) =
      [⟨mkRat 9 10, some "F"⟩] :=
  deduplicate_chunks_spec.2.2.1 _ _ _ rfl (by norm_num)

/-- C5: `HybridRetrievalPipeline.retrieve_context` routes one-shot on the
classification: an aggregation query never invokes the semantic path and
maps an aggregation exception to the no-data failure instead of
propagating it; a specific query never invokes the aggregation path. -/
theorem retrieve_context_routing (env : HybridEnv) (q : String) :
    (classifyQueryType q = "aggregation" →
      (retrieveContextI env q).2.2 = false ∧
      (∀ msg, env.aggOutcome = Except.error msg →
        (retrieveContextI env q).1 = (none, some noDataMsg))) ∧
    (classifyQueryType q = "specific" → (retrieveContextI env q).2.1 = false) := by
  obtain ⟨agg, rag⟩ := env
  constructor
  · intro h
    unfold retrieveContextI
    rw [if_pos h]
    cases agg with
    | ok ctx =>
      refine ⟨rfl, fun msg hmsg => ?_⟩
      simp at hmsg
    | error e => exact ⟨rfl, fun msg _ => rfl⟩
  · intro h
    have hne : ¬ classifyQueryType q = "aggregation" := by
      rw [h]; decide
    unfold retrieveContextI
    rw [if_neg hne]
    cases rag <;> rfl

/-- Concrete instances of the routing behaviour: a failed aggregation on an
aggregation query yields the no-data pair without touching the semantic
path, and a specific query never touches the aggregation path. -/
theorem retrieve_context_routing_witness :
    ((retrieveContextI ⟨Except.error "boom", Except.ok "ctx"⟩ "compare all funds").2.2 =
        false ∧
      (retrieveContextI ⟨Except.error "boom", Except.ok "ctx"⟩ "compare all funds").1 =
        (none, some noDataMsg)) ∧
    (retrieveContextI ⟨Except.error "boom", Except.ok "ctx"⟩ "hello").2.1 = false := by
  refine ⟨⟨?_, ?_⟩, ?_⟩
  · exact ((retrieve_context_routing _ _).1 (by decide)).1
  · exact ((retrieve_context_routing _ _).1 (by decide)).2 "boom" rfl
  · exact (retrieve_context_routing _ _).2 (by decide)

/-- Any error produced by the hybrid retrieval is the fixed no-data
message. -/
theorem retrieveContextI_error_msg (env : HybridEnv) (q : String) (e : String)
    (h : (retrieveContextI env q).1.2 = some e) : e = noDataMsg := by
  obtain ⟨agg, rag⟩ := env
  unfold retrieveContextI at h
  by_cases hc : classifyQueryType q = "aggregation"
  · rw [if_pos hc] at h
    cases agg with
    | ok ctx => simp at h
    | error msg => simp at h; exact h.symm
  · rw [if_neg hc] at h
    cases rag with
    | ok ctx => simp at h
    | error u => simp at h; exact h.symm

/-- C6: when the hybrid retrieval returns an error, `HybridRAGPipeline.query`
returns that error text verbatim as the answer without invoking the
generation capability, and the `error` field of the result is populated
exactly in that case (it stays nil on retrieval success, whatever the
generation outcome). -/
theorem hybrid_query_error_short_circuit (env : AnswerEnv) (q : String) :
    (∀ e, (retrieveContextI env.hy q).1.2 = some e →
      (hybridRAGQuery env q).1.answer = e ∧
      (hybridRAGQuery env q).2 = false ∧
      (hybridRAGQuery env q).1.error = some e) ∧
    ((retrieveContextI env.hy q).1.2 = none → (hybridRAGQuery env q).1.error = none) := by
  constructor
  · intro e he
    have hmsg := retrieveContextI_error_msg env.hy q e he
    subst hmsg
    simp only [hybridRAGQuery, he]
    have : pyTruthyStrOpt (some noDataMsg) = true := by decide
    rw [this]
    exact ⟨rfl, rfl, rfl⟩
  · intro he
    simp only [hybridRAGQuery, he]
    have : pyTruthyStrOpt none = false := rfl
    rw [this]
    cases env.genOutcome <;> rfl

/-- Concrete instance: a specific query whose semantic retrieval fails is
answered by the no-data message, generation is skipped, and the error
field carries the same message. -/
theorem hybrid_query_error_short_circuit_witness :
    (hybridRAGQuery ⟨⟨Except.ok "agg", Except.error ()⟩, Except.ok "text"⟩ "hello").1.answer =
        noDataMsg ∧
      (hybridRAGQuery ⟨⟨Except.ok "agg", Except.error ()⟩, Except.ok "text"⟩ "hello").2 =
        false ∧
      (hybridRAGQuery ⟨⟨Except.ok "agg", Except.error ()⟩, Except.ok "text"⟩ "hello").1.error =
        some noDataMsg :=
  (hybrid_query_error_short_circuit _ _).1 noDataMsg (by decide)

/-- C7: the sanitiser's character class `[\x00-\x09\x0B-\x1F\x7F]` removes
NUL bytes and the vertical tab and keeps interior newlines, but — contrary
to its own comment, which excepts `\t` — it also removes embedded tabs,
because the first range ends at `\x09`. -/
theorem sanitize_text_tab_bug :
    sanitizeTextForJson "a\tb" = "ab" ∧
    sanitizeTextForJson "A\x00B\x0BC\nD" = "ABC\nD" := by
  decide

/-- C9 counterexample: on the hybrid pipeline a generated text that fails
`validate_answer` (five characters, no refusal phrase) is returned to the
caller unchanged — `HybridRAGPipeline.query` never consults
`validate_answer`, so no replacement by the canonical refusal happens. -/
theorem hybrid_query_no_answer_validation :
    validateAnswer "bad42" "ctx" = false ∧
    (hybridRAGQuery ⟨⟨Except.ok "aggctx", Except.ok "ctx"⟩, Except.ok "bad42"⟩
        "hello").1.answer = "bad42" ∧
    "bad42" ≠ noDataMsg := by
  decide

/-- C9 (amended): in the plain `RAGPipeline.query`, a generated answer that
fails `validate_answer` is replaced by the canonical refusal sentence. -/
theorem rag_query_malformed_replaced (env : RAGEnv) (q : String)
    (h1 : pyTruthyStrOpt env.retrieveOutcome.2 = false)
    (h2 : validateAnswer env.genAnswer (env.retrieveOutcome.1.getD "") = false) :
    (ragQuery env q).answer = noDataMsg := by
  unfold ragQuery
  rw [h1]
  simp only [Bool.false_eq_true, if_false]
  rw [h2]
  simp

/-- Concrete instance: a successful retrieval followed by a five-character
generated answer is replaced by the refusal sentence. -/
theorem rag_query_malformed_replaced_witness :
    (ragQuery ⟨(some "ctx", none), "bad42"⟩ "q").answer = noDataMsg :=
  rag_query_malformed_replaced _ _ (by decide) (by decide)

/-- Membership in the sorted distinct group keys is membership in the
original key list. -/
theorem mem_groupKeysSorted {f : String} {names : List String} :
    f ∈ groupKeysSorted names ↔ f ∈ names := by
  unfold groupKeysSorted
  rw [(List.perm_insertionSort _ _).mem_iff, List.mem_dedup]

/-- The value sort permutes the entries, so key membership is unchanged. -/
theorem mem_map_fst_sortByValDesc {β : Type} [LinearOrder β] {f : String}
    {d : List (String × β)} :
    f ∈ (sortByValDesc d).map Prod.fst ↔ f ∈ d.map Prod.fst := by
  unfold sortByValDesc
  exact ((List.perm_insertionSort _ d).map Prod.fst).mem_iff

/-- The keys of a grouped sum are exactly the sorted distinct group keys. -/
theorem map_fst_groupSum {α : Type} (rows : List α) (key : α → String) (val : α → ℚ) :
    (groupSum rows key val).map Prod.fst = groupKeysSorted (rows.map key) := by
  unfold groupSum
  rw [List.map_map]
  exact List.map_id _

/-- C1: for a non-empty Holdings table, every fund identifier occurring in
Holdings is a key of the `pl_ytd_by_fund` mapping of the stats dict
computed by `compute_fund_aggregations`, whatever the Trades table. -/
theorem compute_fund_aggregations_complete
    (holdings : List HoldingRow) (trades : Option (List TradeRow)) (f : String)
    (hne : holdings ≠ [])
    (hf : f ∈ holdings.map HoldingRow.PortfolioName) :
    ∃ d, (computeFundAggregations (some holdings) trades).pl_ytd_by_fund = some d ∧
      f ∈ d.map Prod.fst := by
  have hlen : 0 < holdings.length := List.length_pos.mpr hne
  refine ⟨sortByValDesc (groupSum holdings HoldingRow.PortfolioName HoldingRow.PL_YTD),
    ?_, ?_⟩
  · unfold computeFundAggregations
    cases trades with
    | none => simp [hlen]
    | some tr =>
      by_cases h : 0 < tr.length <;> simp [hlen, h]
  · rw [mem_map_fst_sortByValDesc, map_fst_groupSum, mem_groupKeysSorted]
    exact hf

/-- Concrete instance: a one-row Holdings table for fund `Alpha` yields a
`pl_ytd_by_fund` mapping keyed by `Alpha`. -/
theorem compute_fund_aggregations_complete_witness :
    ∃ d, (computeFundAggregations (some [⟨"Alpha", 1, 0, 0, 0⟩]) none).pl_ytd_by_fund =
        some d ∧ "Alpha" ∈ d.map Prod.fst :=
  compute_fund_aggregations_complete [⟨"Alpha", 1, 0, 0, 0⟩] none "Alpha" (by simp)
    (by simp)

/-- Digit characters are never a newline. -/
theorem digitChar_ne_newline (n : Nat) : digitChar n ≠ '\n' := by
  unfold digitChar
  split_ifs <;> decide

/-- A fuelled decimal rendering with sufficient fuel starts with a digit
character, hence never with a newline. -/
theorem natDigitsAux_head (fuel : Nat) :
    ∀ n : Nat, n < fuel → ∃ c cs, natDigitsAux fuel n = c :: cs ∧ c ≠ '\n' := by
  induction fuel with
  | zero => intro n h; omega
  | succ fuel ih =>
    intro n h
    by_cases h10 : n < 10
    · exact ⟨digitChar n, [], by simp [natDigitsAux, h10], digitChar_ne_newline n⟩
    · have hdiv : n / 10 < fuel := by
        have := Nat.div_lt_self (by omega : 0 < n) (by norm_num : 1 < 10)
        omega
      obtain ⟨c, cs, heq, hc⟩ := ih (n / 10) hdiv
      exact ⟨c, cs ++ [digitChar (n % 10)], by simp [natDigitsAux, h10, heq], hc⟩

/-- A rendered natural number starts with a digit, never with a newline. -/
theorem natDigits_head (n : Nat) : ∃ c cs, natDigits n = c :: cs ∧ c ≠ '\n' :=
  natDigitsAux_head (n + 1) n (Nat.lt_succ_self n)

/-- The cash-section header never occurs in the P&L ranking section. -/
theorem cashHeader_notin_plSection (stats : Stats) :
    cashHeaderChars ∉ plSection stats := by
  cases hpl : stats.pl_ytd_by_fund with
  | none => simp [plSection, hpl]
  | some d =>
    by_cases hd : d = []
    · simp [plSection, hpl, hd]
    · simp only [plSection, hpl]
      rw [if_neg hd]
      intro hmem
      simp only [List.mem_cons, List.mem_append, List.mem_map, List.mem_singleton] at hmem
      rcases hmem with h | h | ⟨p, _, h⟩ | h | h
      · exact absurd h (by decide)
      · exact absurd h (by decide)
      · obtain ⟨c, cs, hcds, hcn⟩ := natDigits_head (p.1 + 1)
        rw [hcds, List.cons_append] at h
        have h2 : some c = some '\n' := congrArg List.head? h
        exact hcn (Option.some.inj h2)
      · have h2 : some '\n' = some 'T' := congrArg (fun l => l.tail.head?) h
        exact absurd h2 (by decide)
      · exact absurd h (List.not_mem_nil _)

/-- The cash-section header never occurs in the holdings-count section. -/
theorem cashHeader_notin_holdingsSection (stats : Stats) :
    cashHeaderChars ∉ holdingsSection stats := by
  cases hhc : stats.holdings_count with
  | none => simp [holdingsSection, hhc]
  | some d =>
    by_cases hd : d = []
    · simp [holdingsSection, hhc, hd]
    · simp only [holdingsSection, hhc]
      rw [if_neg hd]
      intro hmem
      simp only [List.mem_cons, List.mem_map] at hmem
      rcases hmem with h | ⟨p, _, h⟩
      · exact absurd h (by decide)
      · have h2 : some ' ' = some '\n' := congrArg List.head? h
        exact absurd h2 (by decide)

/-- The cash-section header never occurs in the trade-count section. -/
theorem cashHeader_notin_tradeSection (stats : Stats) :
    cashHeaderChars ∉ tradeSection stats := by
  cases htc : stats.trade_count with
  | none => simp [tradeSection, htc]
  | some d =>
    by_cases hd : d = []
    · simp [tradeSection, htc, hd]
    · simp only [tradeSection, htc]
      rw [if_neg hd]
      intro hmem
      simp only [List.mem_cons, List.mem_map] at hmem
      rcases hmem with h | ⟨p, _, h⟩
      · exact absurd h (by decide)
      · have h2 : some ' ' = some '\n' := congrArg List.head? h
        exact absurd h2 (by decide)

/-- C8 counterexample: a stats dict whose only key is a non-empty
`total_cash` and a question that mentions cash but not total — the claim
predicts the cash section, yet `format_aggregation_context` emits no
section at all, because the source gates the section on both `'total'`
and `'cash'` occurring in the lower-cased question. -/
theorem format_aggregation_cash_counterexample :
    statsCash.total_cash = some [("FundA", 5)] ∧
    pyContainsSub (pyLower ("cash positions".data)) "cash".data = true ∧
    cashHeaderChars ∉ formatAggregationContextParts statsCash "cash positions" ∧
    formatAggregationContext statsCash "cash positions" = "No aggregation data available." := by
  refine ⟨rfl, by decide, by decide, by decide⟩

/-- C8 (amended): for a stats dict with a non-empty `total_cash` mapping,
the rendered parts contain the cash-ranking section header exactly when
the lower-cased question contains both `'total'` and `'cash'`. -/
theorem format_aggregation_cash_iff (stats : Stats) (query : String)
    (d : List (String × ℚ)) (hd : stats.total_cash = some d) (hne : d ≠ []) :
    cashHeaderChars ∈ formatAggregationContextParts stats query ↔
      (pyContainsSub (pyLower query.data) "total".data = true ∧
       pyContainsSub (pyLower query.data) "cash".data = true) := by
  unfold formatAggregationContextParts
  constructor
  · intro hmem
    simp only [List.mem_append] at hmem
    rcases hmem with ((h | h) | h) | h
    · exact absurd h (cashHeader_notin_plSection stats)
    · exact absurd h (cashHeader_notin_holdingsSection stats)
    · exact absurd h (cashHeader_notin_tradeSection stats)
    · unfold cashSection at h
      by_cases hc : (pyContainsSub (pyLower query.data) "total".data &&
          pyContainsSub (pyLower query.data) "cash".data) = true
      · simp only [Bool.and_eq_true] at hc
        exact hc
      · rw [if_neg hc] at h
        simp at h
  · rintro ⟨h1, h2⟩
    refine List.mem_append.mpr (Or.inr ?_)
    simp [cashSection, hd, h1, h2, hne]

/-- Concrete instance: with a non-empty `total_cash` and the question
`"total cash"`, the cash-ranking header is rendered. -/
theorem format_aggregation_cash_iff_witness :
    cashHeaderChars ∈ formatAggregationContextParts statsCash "total cash" :=
  (format_aggregation_cash_iff statsCash "total cash" [("FundA", 5)] rfl
      (by simp)).mpr ⟨by decide, by decide⟩
